import Mathlib

/-!
Verification development for the PulseCall backend: a shallow embedding of
the acoustic/textual triage classifier (src/backend/triage.py), the
call-attempt state machine (src/backend/scheduler.py, schedule_retry), the
retry scheduler sweep (src/backend/scheduler.py, process_pending_calls) and
the webhook / manual-trigger handlers (src/backend/main.py).

Numeric metrics (decibel levels, probabilities) are embedded as rationals;
timestamps are rationals measured in minutes. Randomly generated identifiers
(uuid4) are passed in as explicit parameters. Database commits are modelled
by returning the updated record.
-/

namespace PulseCall

/-- Substring containment, modelling the Python operator `in` on strings
(`kw in text_lower`): the pattern occurs contiguously inside the haystack. -/
def strContainsSub (hay pat : String) : Bool :=
  hay.data.tails.any (fun t => pat.data.isPrefixOf t)

/-- Python str.lower, embedded structurally over the character list (the
texts and labels involved are ASCII). -/
def strToLower (s : String) : String := String.mk (s.data.map Char.toLower)

/-- models.CallState -/
inductive CallState
  | PENDING
  | BUSY_RETRY
  | SILENT_RETRY
  | ESCALATED
  | COMPLETED
deriving DecidableEq, Repr

/-- models.TriageClassification -/
inductive TriageClassification
  | BACKGROUND_NOISE
  | CRITICAL_SILENCE
  | LIKELY_SLEEPING
  | SPEECH_DETECTED
deriving DecidableEq, Repr

/-- The `.value` of the string enum models.TriageClassification. -/
def TriageClassification.value : TriageClassification → String
  | .BACKGROUND_NOISE => "BACKGROUND_NOISE"
  | .CRITICAL_SILENCE => "CRITICAL_SILENCE"
  | .LIKELY_SLEEPING => "LIKELY_SLEEPING"
  | .SPEECH_DETECTED => "SPEECH_DETECTED"

/-- models.AudioMetrics (floats embedded as rationals). -/
structure AudioMetrics where
  avg_db : ℚ
  peak_db : ℚ := 0
  speech_probability : ℚ
  silence_duration_sec : ℚ := 0
  call_duration_sec : ℚ := 0
deriving DecidableEq, Repr

/-- models.EmotionDetection -/
structure EmotionDetection where
  label : String
  confidence : ℚ := 0
deriving DecidableEq, Repr

/-- models.TranscriptSegment (word timestamps carry no triage logic and are
omitted). -/
structure TranscriptSegment where
  speaker : String
  text : String
  emotion : Option EmotionDetection := none
deriving DecidableEq, Repr

/-- models.SmallestAIPostCallPayload -/
structure SmallestAIPostCallPayload where
  call_id : String
  user_id : String
  status : String
  audio_metrics : AudioMetrics
  transcript : List TranscriptSegment := []
  emotions : List EmotionDetection := []
deriving DecidableEq, Repr

/-- models.SmallestAIAnalyticsPayload -/
structure SmallestAIAnalyticsPayload where
  call_id : String
  user_id : String
  audio_metrics : AudioMetrics
  transcript : List TranscriptSegment := []
  emotions : List EmotionDetection := []
  summary : Option String := none
  sentiment : Option String := none
deriving DecidableEq, Repr

/-- models.TriageResult -/
structure TriageResult where
  classification : TriageClassification
  reason : String
  action : String
  retry_delay_minutes : Option ℕ := none
  escalate : Bool := false
deriving DecidableEq, Repr

-- -------------------------------------------------------------------------
-- triage.py thresholds and keyword/emotion sets
-- -------------------------------------------------------------------------

def SILENCE_DB_THRESHOLD : ℚ := -50

def BACKGROUND_NOISE_DB_THRESHOLD : ℚ := -20

/-- 0.3, written as an explicit reduced fraction. -/
def SPEECH_PROBABILITY_THRESHOLD : ℚ := ⟨3, 10, by decide, by decide⟩

def SLEEPING_PEAK_DB : ℚ := -35

/-- The inline literal 0.05 in the critical-silence rule of analyze_vitals. -/
def CRITICAL_SILENCE_SPEECH_PROB : ℚ := ⟨1, 20, by decide, by decide⟩

/-- The inline confidence bound 0.5 in _check_distress_emotions. -/
def DISTRESS_CONFIDENCE_BOUND : ℚ := ⟨1, 2, by decide, by decide⟩

/-- triage.DISTRESS_KEYWORDS (a Python set; embedded as a list in the
literal order of the source; the claims only depend on membership). -/
def DISTRESS_KEYWORDS : List String :=
  ["help", "fall", "fell", "pain", "hurt", "emergency", "can\x27t breathe", "bleeding"]

/-- triage.DISTRESS_EMOTIONS -/
def DISTRESS_EMOTIONS : List String := ["fear", "pain"]

/-- One emotion entry qualifies as distress: label (lowercased) in
DISTRESS_EMOTIONS and confidence above 0.5. -/
def emotionIsDistress (em : EmotionDetection) : Bool :=
  DISTRESS_EMOTIONS.contains (strToLower em.label) &&
    decide (em.confidence > DISTRESS_CONFIDENCE_BOUND)

/-- Distress test for the optional per-segment emotion. -/
def segEmotionIsDistress (seg : TranscriptSegment) : Bool :=
  match seg.emotion with
  | some em => emotionIsDistress em
  | none => false

/-- triage._check_distress_emotions: first qualifying call-level emotion,
else the emotion of the first transcript segment whose emotion qualifies. -/
def checkDistressEmotions (emotions : List EmotionDetection)
    (transcript : List TranscriptSegment) : Option EmotionDetection :=
  match emotions.find? emotionIsDistress with
  | some em => some em
  | none =>
    match transcript.find? segEmotionIsDistress with
    | some seg => seg.emotion
    | none => none

/-- First distress keyword contained in the lowercased text of one segment. -/
def segKeywordHit (seg : TranscriptSegment) : Option String :=
  DISTRESS_KEYWORDS.find? (fun kw => strContainsSub (strToLower seg.text) kw)

/-- triage._check_distress_keywords: scan segments in order, within each
segment scan the keyword set, return the first hit. -/
def checkDistressKeywords : List TranscriptSegment → Option String
  | [] => none
  | seg :: rest =>
    match segKeywordHit seg with
    | some kw => some kw
    | none => checkDistressKeywords rest

/-- triage.analyze_vitals: emotion bypass, then keyword bypass, then the
acoustic rule chain (background noise, critical silence, likely sleeping,
speech, ambiguous fallback). -/
def analyzeVitals (payload : SmallestAIPostCallPayload) : TriageResult :=
  match checkDistressEmotions payload.emotions payload.transcript with
  | some em =>
    { classification := .SPEECH_DETECTED
      reason := "Distress emotion detected: " ++ em.label ++
        " (confidence " ++ toString em.confidence ++ ")"
      action := "IMMEDIATE_ESCALATION"
      escalate := true }
  | none =>
    match checkDistressKeywords payload.transcript with
    | some kw =>
      { classification := .SPEECH_DETECTED
        reason := "Distress keyword detected in transcript: " ++ kw
        action := "IMMEDIATE_ESCALATION"
        escalate := true }
    | none =>
      if payload.audio_metrics.avg_db > BACKGROUND_NOISE_DB_THRESHOLD ∧
          payload.audio_metrics.speech_probability < SPEECH_PROBABILITY_THRESHOLD then
        { classification := .BACKGROUND_NOISE
          reason := "High ambient noise (avg_db=" ++ toString payload.audio_metrics.avg_db ++
            ") with low speech probability (" ++ toString payload.audio_metrics.speech_probability ++ ")"
          action := "SCHEDULE_RETRY"
          retry_delay_minutes := some 20
          escalate := false }
      else if payload.audio_metrics.avg_db < SILENCE_DB_THRESHOLD ∧
          payload.audio_metrics.speech_probability < CRITICAL_SILENCE_SPEECH_PROB then
        { classification := .CRITICAL_SILENCE
          reason := "Total silence detected (avg_db=" ++ toString payload.audio_metrics.avg_db ++
            ", speech_prob=" ++ toString payload.audio_metrics.speech_probability ++ ")"
          action := "IMMEDIATE_ESCALATION"
          escalate := true }
      else if payload.audio_metrics.avg_db < SLEEPING_PEAK_DB ∧
          payload.audio_metrics.peak_db > payload.audio_metrics.avg_db + 5 ∧
          payload.audio_metrics.speech_probability < SPEECH_PROBABILITY_THRESHOLD then
        { classification := .LIKELY_SLEEPING
          reason := "Low rhythmic noise pattern (avg_db=" ++ toString payload.audio_metrics.avg_db ++
            ", peak_db=" ++ toString payload.audio_metrics.peak_db ++ ")"
          action := "SCHEDULE_RETRY"
          retry_delay_minutes := some 60
          escalate := false }
      else if payload.audio_metrics.speech_probability ≥ SPEECH_PROBABILITY_THRESHOLD then
        { classification := .SPEECH_DETECTED
          reason := "Speech detected (probability=" ++ toString payload.audio_metrics.speech_probability ++ ")"
          action := "ANALYZE_TRANSCRIPT"
          escalate := false }
      else
        { classification := .BACKGROUND_NOISE
          reason := "Ambiguous audio (avg_db=" ++ toString payload.audio_metrics.avg_db ++
            ", speech_prob=" ++ toString payload.audio_metrics.speech_probability ++ ")"
          action := "SCHEDULE_RETRY"
          retry_delay_minutes := some 15
          escalate := false }

-- -------------------------------------------------------------------------
-- Data model of the persistent records (database.py)
-- -------------------------------------------------------------------------

/-- models.PatientStatus (values used by main.py). -/
inductive PatientStatus
  | PENDING_REVIEW
  | ACTIVE
  | CONFIRMED
deriving DecidableEq, Repr

/-- database.Patient, restricted to the fields the scheduling and webhook
logic reads. -/
structure PatientRec where
  id : String
  name : String
  phone : String
  status : PatientStatus
deriving DecidableEq, Repr

/-- database.CallRecord. Timestamps are rationals in minutes; the JSON-text
column detected_flags is embedded as the decoded list (_json_loads maps a
null column to the empty list). -/
structure CallRec where
  id : String
  patient_id : String
  state : CallState
  retry_count : ℕ
  max_retries : ℕ
  triage_classification : Option String := none
  triage_reason : Option String := none
  transcript_text : Option String := none
  summary : Option String := none
  sentiment_score : Option ℤ := none
  detected_flags : List String := []
  recommended_action : Option String := none
  escalation_reason : Option String := none
  smallest_call_id : Option String := none
  started_at : Option ℚ := none
  ended_at : Option ℚ := none
  next_retry_at : Option ℚ := none
deriving DecidableEq, Repr

/-- database.EscalationRecord (the uuid-generated id is passed in by the
caller; acknowledged_at is only touched by the acknowledgment endpoint). -/
structure EscRec where
  id : String
  call_id : Option String
  patient_id : String
  priority : String
  status : String
  reason : String
  detected_flags : List String
deriving DecidableEq, Repr

/-- The two retry states. -/
def isRetryState (s : CallState) : Bool :=
  s = CallState.BUSY_RETRY || s = CallState.SILENT_RETRY

/-- The two terminal states. -/
def isTerminalState (s : CallState) : Bool :=
  s = CallState.ESCALATED || s = CallState.COMPLETED

-- -------------------------------------------------------------------------
-- Python truthiness helpers (`x or d`)
-- -------------------------------------------------------------------------

/-- Python `x or d` for an optional integer: None and 0 are falsy. -/
def pyOrInt (x : Option ℤ) (d : ℤ) : ℤ :=
  match x with
  | none => d
  | some s => if s = 0 then d else s

/-- Python `x or d` for an optional natural number: None and 0 are falsy. -/
def pyOrNat (x : Option ℕ) (d : ℕ) : ℕ :=
  match x with
  | none => d
  | some n => if n = 0 then d else n

/-- Python `x or ""` for an optional string: None and "" are falsy. -/
def pyOrStr (x : Option String) : String :=
  match x with
  | none => ""
  | some s => s

-- -------------------------------------------------------------------------
-- scheduler.py configuration defaults
-- -------------------------------------------------------------------------

/-- CHECK_INTERVAL_HOURS default 2, expressed in minutes. -/
def CHECK_INTERVAL_MINUTES : ℚ := 120

/-- MAX_RETRIES default. -/
def MAX_RETRIES : ℕ := 3

-- -------------------------------------------------------------------------
-- scheduler.schedule_retry — the retry/escalation transition
-- -------------------------------------------------------------------------

/-- scheduler.schedule_retry: increment retry_count, set next_retry_at to
now + delay, then either escalate (retry_count at or above max_retries) or
move to SILENT_RETRY / BUSY_RETRY depending on whether the stored
triage_classification contains the substring SILENCE. -/
def scheduleRetry (rec : CallRec) (delay_minutes : ℕ) (now : ℚ) : CallRec :=
  let rc := rec.retry_count + 1
  let rec1 := { rec with retry_count := rc, next_retry_at := some (now + delay_minutes) }
  if rec.max_retries ≤ rc then
    { rec1 with
      state := .ESCALATED
      escalation_reason := some ("Max retries (" ++ toString rec.max_retries ++
        ") exceeded after triage: " ++ pyOrStr rec.triage_classification) }
  else
    { rec1 with
      state :=
        if strContainsSub (pyOrStr rec.triage_classification) "SILENCE" then
          .SILENT_RETRY
        else
          .BUSY_RETRY }

-- -------------------------------------------------------------------------
-- main.webhook_post_call
-- -------------------------------------------------------------------------

/-- Output contract of claude.process_transcript (the external transcript
analyzer); None models the call raising, which the handler catches. -/
structure AnalysisResult where
  summary : String
  sentiment_score : ℤ
  detected_flags : List String
  recommended_action : String
deriving DecidableEq, Repr

/-- Result of one webhook invocation: the returned status token, the call
record as committed, and the EscalationRecords inserted during the call. -/
structure WebhookOutcome where
  status : String
  record : CallRec
  newEscalations : List EscRec
deriving DecidableEq, Repr

/-- The defensive record webhook_post_call creates when no record matches
the incoming smallest call id (database column defaults apply). -/
def mkDefensiveRecord (payload : SmallestAIPostCallPayload) (now : ℚ)
    (freshCallId : String) : CallRec :=
  { id := freshCallId
    patient_id := payload.user_id
    state := .PENDING
    retry_count := 0
    max_retries := 3
    smallest_call_id := some payload.call_id
    started_at := some now }

/-- main.webhook_post_call. Parameters: the payload, the record found by
smallest_call_id lookup (None triggers the defensive creation), the result
of claude.process_transcript (None models the exception path), the current
time, and the two uuid-generated identifiers. -/
def webhookPostCall (payload : SmallestAIPostCallPayload)
    (existing : Option CallRec) (analysis : Option AnalysisResult)
    (now : ℚ) (freshCallId freshEscId : String) : WebhookOutcome :=
  let rec0 :=
    match existing with
    | some r => r
    | none => mkDefensiveRecord payload now freshCallId
  if payload.status = "busy" ∨ payload.status = "no_answer" ∨ payload.status = "failed" then
    let rec1 := { rec0 with
      state := .BUSY_RETRY
      triage_reason := some ("Call status: " ++ payload.status) }
    { status := "retry_scheduled", record := scheduleRetry rec1 10 now, newEscalations := [] }
  else
    let tr := analyzeVitals payload
    let transcriptText := String.intercalate "\n"
      (payload.transcript.map (fun seg => seg.speaker ++ ": " ++ seg.text))
    let rec1 := { rec0 with
      triage_classification := some tr.classification.value
      triage_reason := some tr.reason
      ended_at := some now
      transcript_text := some transcriptText }
    if tr.escalate then
      let rec2 := { rec1 with state := .ESCALATED, escalation_reason := some tr.reason }
      let esc : EscRec :=
        { id := freshEscId
          call_id := some rec2.id
          patient_id := payload.user_id
          priority := "high"
          status := "open"
          reason := tr.reason
          detected_flags := [tr.classification.value] }
      { status := "escalated", record := rec2, newEscalations := [esc] }
    else if tr.action = "SCHEDULE_RETRY" then
      { status := "retry_scheduled"
        record := scheduleRetry rec1 (pyOrNat tr.retry_delay_minutes 20) now
        newEscalations := [] }
    else if tr.action = "ANALYZE_TRANSCRIPT" then
      let rec2 :=
        match analysis with
        | some a => { rec1 with
            summary := some a.summary
            sentiment_score := some a.sentiment_score
            detected_flags := a.detected_flags
            recommended_action := some a.recommended_action }
        | none => rec1
      let rec3 := { rec2 with state := .COMPLETED }
      if rec3.detected_flags ≠ ([] : List String) then
        let esc : EscRec :=
          { id := freshEscId
            call_id := some rec3.id
            patient_id := payload.user_id
            priority := if pyOrInt rec3.sentiment_score 3 ≤ 2 then "high" else "medium"
            status := "open"
            reason := "Transcript flags: " ++ String.intercalate ", " rec3.detected_flags
            detected_flags := rec3.detected_flags }
        { status := "completed", record := rec3, newEscalations := [esc] }
      else
        { status := "completed", record := rec3, newEscalations := [] }
    else
      { status := "completed", record := { rec1 with state := .COMPLETED }, newEscalations := [] }

-- -------------------------------------------------------------------------
-- main.webhook_analytics
-- -------------------------------------------------------------------------

/-- Result of one analytics-webhook invocation; record is None when no call
record matched the incoming id (the handler ignores the event). -/
structure AnalyticsOutcome where
  status : String
  record : Option CallRec
  newEscalations : List EscRec
deriving DecidableEq, Repr

/-- main.webhook_analytics: ignore unknown calls, short-circuit terminal
records with already_processed, otherwise re-run triage on a synthesized
completed post-call payload; an escalating result moves the record to
ESCALATED (sending an SMS but inserting no EscalationRecord), anything else
just stores the classification. -/
def webhookAnalytics (payload : SmallestAIAnalyticsPayload)
    (existing : Option CallRec) : AnalyticsOutcome :=
  match existing with
  | none => { status := "ignored", record := none, newEscalations := [] }
  | some r =>
    if r.state = .ESCALATED ∨ r.state = .COMPLETED then
      { status := "already_processed", record := some r, newEscalations := [] }
    else
      let post : SmallestAIPostCallPayload :=
        { call_id := payload.call_id
          user_id := payload.user_id
          status := "completed"
          audio_metrics := payload.audio_metrics
          transcript := payload.transcript
          emotions := payload.emotions }
      let tr := analyzeVitals post
      let r1 := { r with
        triage_classification := some tr.classification.value
        triage_reason := some tr.reason }
      if tr.escalate then
        { status := "escalated"
          record := some { r1 with state := .ESCALATED, escalation_reason := some tr.reason }
          newEscalations := [] }
      else
        { status := "updated", record := some r1, newEscalations := [] }

-- -------------------------------------------------------------------------
-- main.trigger_outbound_call — the manual place-call-now endpoint
-- -------------------------------------------------------------------------

/-- Success body of the manual trigger. -/
structure TriggerResp where
  status : String
  call_id : String
  smallest_call_id : String
deriving DecidableEq, Repr

/-- main.trigger_outbound_call for an existing patient: create a PENDING
record, invoke placement (its external call id, or None on failure); on
success attach the id and return the body, on failure flip the record to
BUSY_RETRY and surface HTTP 502. -/
def triggerOutboundCall (patient : PatientRec) (placement : Option String)
    (now : ℚ) (freshCallId : String) : Except ℕ TriggerResp × CallRec :=
  let rec0 : CallRec :=
    { id := freshCallId
      patient_id := patient.id
      state := .PENDING
      retry_count := 0
      max_retries := 3
      started_at := some now }
  match placement with
  | some sid =>
    (Except.ok { status := "call_placed", call_id := freshCallId, smallest_call_id := sid },
      { rec0 with smallest_call_id := some sid })
  | none =>
    (Except.error 502, { rec0 with state := .BUSY_RETRY })

-- -------------------------------------------------------------------------
-- scheduler.process_pending_calls — one user of the periodic sweep
-- -------------------------------------------------------------------------

/-- The due-now decision of scheduler.process_pending_calls, computed from
the latest call record of the user (the user row itself is not consulted
beyond identity). -/
def sweepShouldCall (latest : Option CallRec) (now : ℚ) : Bool :=
  match latest with
  | none => true
  | some lc =>
    if lc.state = .COMPLETED then
      match lc.ended_at with
      | some e => decide (e + CHECK_INTERVAL_MINUTES ≤ now)
      | none => false
    else if lc.state = .BUSY_RETRY ∨ lc.state = .SILENT_RETRY then
      match lc.next_retry_at with
      | some t => decide (t ≤ now) && decide (lc.retry_count < lc.max_retries)
      | none => false
    else
      false

/-- The side effect process_pending_calls applies to the latest record
itself: a due retry whose retry_count has reached max_retries is
force-escalated; every other record is left untouched. -/
def sweepUpdateLatest (latest : Option CallRec) (now : ℚ) : Option CallRec :=
  match latest with
  | none => none
  | some lc =>
    if lc.state = .BUSY_RETRY ∨ lc.state = .SILENT_RETRY then
      match lc.next_retry_at with
      | some t =>
        if t ≤ now ∧ lc.max_retries ≤ lc.retry_count then
          some { lc with
            state := .ESCALATED
            escalation_reason := some ("Max retries (" ++ toString lc.max_retries ++ ") exceeded") }
        else
          some lc
      | none => some lc
    else
      some lc

/-- One iteration of the sweep loop body for one user: possibly escalate the
stale latest record, and when the user is due, create a new PENDING record
(carrying the retry_count of the latest record forward) and place the call;
a placement failure flips the new record to BUSY_RETRY with a retry in five
minutes. Returns the updated latest record and the created record, if any.
The user status is never read by the loop. -/
def sweepUserStep (user : PatientRec) (latest : Option CallRec)
    (placement : Option String) (now : ℚ) (freshCallId : String) :
    Option CallRec × Option CallRec :=
  let updatedLatest := sweepUpdateLatest latest now
  if sweepShouldCall latest now then
    let newRec : CallRec :=
      { id := freshCallId
        patient_id := user.id
        state := .PENDING
        retry_count :=
          match latest with
          | none => 0
          | some lc => lc.retry_count
        max_retries := MAX_RETRIES
        started_at := some now }
    match placement with
    | some sid => (updatedLatest, some { newRec with smallest_call_id := some sid })
    | none =>
      (updatedLatest,
        some { newRec with state := .BUSY_RETRY, next_retry_at := some (now + 5) })
  else
    (updatedLatest, none)

-- -------------------------------------------------------------------------
-- Event traces over one call attempt record
-- -------------------------------------------------------------------------

/-- The events that can reach one existing attempt record: a post-call
webhook delivery, an analytics webhook delivery, and the periodic sweep
inspecting the record as the latest attempt of its patient. -/
inductive AttemptEvent
  | postCall (payload : SmallestAIPostCallPayload) (analysis : Option AnalysisResult)
      (now : ℚ) (freshEscId : String)
  | analytics (payload : SmallestAIAnalyticsPayload)
  | sweepTouch (now : ℚ)

/-- Apply one event to the record (webhook lookup already resolved to it). -/
def applyEvent (rec : CallRec) : AttemptEvent → CallRec
  | .postCall p analysis now eid => (webhookPostCall p (some rec) analysis now rec.id eid).record
  | .analytics p =>
    match (webhookAnalytics p (some rec)).record with
    | some r => r
    | none => rec
  | .sweepTouch now =>
    match sweepUpdateLatest (some rec) now with
    | some r => r
    | none => rec

/-- An application of an event performed a transition into a retry state:
it left the record in BUSY_RETRY or SILENT_RETRY, and either changed the
state or scheduled a fresh retry (incremented retry_count). -/
def isRetryEntry (before after : CallRec) : Bool :=
  isRetryState after.state &&
    (decide (before.state ≠ after.state) || decide (before.retry_count < after.retry_count))

/-- Number of transitions into a retry state along the trace, counted only
until the record first reaches a terminal state. -/
def countRetryEntries (rec : CallRec) : List AttemptEvent → ℕ
  | [] => 0
  | e :: es =>
    if isTerminalState rec.state then 0
    else
      (if isRetryEntry rec (applyEvent rec e) then 1 else 0) +
        countRetryEntries (applyEvent rec e) es

/-- Outcome of the single placement performed right after an attempt record
is created: success attaches the external call id; a failure in the sweep
sets BUSY_RETRY with a five-minute retry, a failure in the manual trigger
sets BUSY_RETRY without a retry time (as in the respective source paths). -/
inductive PlacementResult
  | success (sid : String)
  | failureSweep (now : ℚ)
  | failureManual

/-- Effect of the placement outcome on the fresh record. -/
def applyPlacement (rec : CallRec) : PlacementResult → CallRec
  | .success sid => { rec with smallest_call_id := some sid }
  | .failureSweep now => { rec with state := .BUSY_RETRY, next_retry_at := some (now + 5) }
  | .failureManual => { rec with state := .BUSY_RETRY }

def placementIsSuccess : PlacementResult → Bool
  | .success _ => true
  | _ => false

def eventIsSweep : AttemptEvent → Bool
  | .sweepTouch _ => true
  | _ => false

/-- Total number of transitions into a retry state over the lifetime of one
attempt: the placement outcome followed by the event trace. -/
def attemptRetryTransitions (rec : CallRec) (pr : PlacementResult)
    (es : List AttemptEvent) : ℕ :=
  (if isRetryEntry rec (applyPlacement rec pr) then 1 else 0) +
    countRetryEntries (applyPlacement rec pr) es

-- -------------------------------------------------------------------------
-- Concrete inputs used by counterexamples and witnesses
-- -------------------------------------------------------------------------

/-- Silent-call payload whose transcript carries a distress keyword. -/
def pC1cex : SmallestAIPostCallPayload :=
  { call_id := "sm_c1", user_id := "p1", status := "completed"
    audio_metrics := { avg_db := -60, peak_db := -58, speech_probability := 0 }
    transcript := [{ speaker := "user", text := "I need HELP" }] }

/-- Silent-call payload with an empty transcript and no emotions. -/
def pC1wit : SmallestAIPostCallPayload :=
  { call_id := "sm_c1w", user_id := "p1", status := "completed"
    audio_metrics := { avg_db := -60, peak_db := -58, speech_probability := 0 } }

/-- An attempt already COMPLETED, as stored after a processed call. -/
def recC2cex : CallRec :=
  { id := "call_c2", patient_id := "p2", state := .COMPLETED, retry_count := 0
    max_retries := 3, smallest_call_id := some "sm_c2" }

/-- Replay of the completed-call webhook for that attempt: silent metrics
that escalate under triage. -/
def pC2cex : SmallestAIPostCallPayload :=
  { call_id := "sm_c2", user_id := "p2", status := "completed"
    audio_metrics := { avg_db := -60, peak_db := -58, speech_probability := 0 } }

/-- A completed attempt used against the analytics endpoint. -/
def recC2wit : CallRec :=
  { id := "call_c2w", patient_id := "p2", state := .COMPLETED, retry_count := 0
    max_retries := 3, smallest_call_id := some "sm_c2w" }

/-- An analytics payload for the completed attempt. -/
def pC2wit : SmallestAIAnalyticsPayload :=
  { call_id := "sm_c2w", user_id := "p2"
    audio_metrics := { avg_db := -24, peak_db := -10
                       speech_probability := ⟨7, 10, by decide, by decide⟩ } }

/-- A retry-state attempt one retry short of exhaustion. -/
def recC3cex : CallRec :=
  { id := "call_c3", patient_id := "p3", state := .BUSY_RETRY, retry_count := 2
    max_retries := 3, triage_classification := some "BACKGROUND_NOISE" }

/-- An exhausted retry-state attempt with a due retry time. -/
def lcC3wit : CallRec :=
  { id := "call_c3w", patient_id := "p3", state := .BUSY_RETRY, retry_count := 3
    max_retries := 3, next_retry_at := some 10 }

/-- The record the sweep commits when force-escalating lcC3wit. -/
def rC3wit : CallRec :=
  { lcC3wit with
    state := .ESCALATED
    escalation_reason := some ("Max retries (" ++ toString (3 : ℕ) ++ ") exceeded") }

/-- Noisy-environment payload whose transcript contains a keyword. -/
def pC4wit : SmallestAIPostCallPayload :=
  { call_id := "sm_c4", user_id := "p4", status := "completed"
    audio_metrics := { avg_db := -15, peak_db := -8
                       speech_probability := ⟨2, 25, by decide, by decide⟩ }
    transcript := [{ speaker := "user", text := "Please HELP me now" }] }

/-- A fresh attempt record as the scheduler creates it. -/
def recC5wit : CallRec :=
  { id := "call_c5", patient_id := "p5", state := .PENDING, retry_count := 0
    max_retries := 3, started_at := some 0 }

/-- A busy-status webhook delivery. -/
def pC5busy : SmallestAIPostCallPayload :=
  { call_id := "sm_c5", user_id := "p5", status := "busy"
    audio_metrics := { avg_db := 0, peak_db := 0, speech_probability := 0 } }

/-- An open attempt awaiting its analytics callback. -/
def recC6cex : CallRec :=
  { id := "call_c6", patient_id := "p6", state := .PENDING, retry_count := 0
    max_retries := 3, smallest_call_id := some "sm_c6" }

/-- Analytics payload with silent metrics: triage escalates. -/
def pC6cex : SmallestAIAnalyticsPayload :=
  { call_id := "sm_c6", user_id := "p6"
    audio_metrics := { avg_db := -60, peak_db := -58, speech_probability := 0 } }

/-- An open attempt awaiting its post-call callback. -/
def recC6wit : CallRec :=
  { id := "call_c6w", patient_id := "p6", state := .PENDING, retry_count := 0
    max_retries := 3, smallest_call_id := some "sm_c6w" }

/-- Post-call payload with silent metrics: triage escalates. -/
def pC6wit : SmallestAIPostCallPayload :=
  { call_id := "sm_c6w", user_id := "p6", status := "completed"
    audio_metrics := { avg_db := -60, peak_db := -58, speech_probability := 0 } }

/-- A patient whose record is not under active monitoring. -/
def uC7cex : PatientRec :=
  { id := "p7", name := "Pat", phone := "+15550007", status := .PENDING_REVIEW }

/-- An actively monitored patient. -/
def uC7wit : PatientRec :=
  { id := "p7w", name := "Mel", phone := "+15550008", status := .ACTIVE }

/-- A latest attempt still PENDING (in-flight callback). -/
def lcC7wit : CallRec :=
  { id := "call_c7w", patient_id := "p7w", state := .PENDING, retry_count := 0
    max_retries := 3 }

/-- Payload whose only distress signal is a keyword inside a longer word. -/
def pC9wit : SmallestAIPostCallPayload :=
  { call_id := "sm_c9", user_id := "p9", status := "completed"
    audio_metrics := { avg_db := -15, peak_db := -8
                       speech_probability := ⟨2, 25, by decide, by decide⟩ }
    transcript := [{ speaker := "user", text := "I was helping in the garden" }] }

/-- Speech-detected payload without distress signals. -/
def pC10wit : SmallestAIPostCallPayload :=
  { call_id := "sm_c10", user_id := "p10", status := "completed"
    audio_metrics := { avg_db := -30, peak_db := -20
                       speech_probability := ⟨7, 10, by decide, by decide⟩ }
    transcript := [{ speaker := "user", text := "feeling okay today" }] }

/-- The attempt awaiting that callback. -/
def recC10wit : CallRec :=
  { id := "call_c10", patient_id := "p10", state := .PENDING, retry_count := 0
    max_retries := 3, smallest_call_id := some "sm_c10" }

/-- A transcript-analysis result flagging discomfort with low sentiment. -/
def aC10wit : AnalysisResult :=
  { summary := "patient reports discomfort", sentiment_score := 2
    detected_flags := ["discomfort"], recommended_action := "follow up" }

/-- The escalation record the flag path inserts for that call. -/
def escC10wit : EscRec :=
  { id := "esc_z", call_id := some "call_c10", patient_id := "p10"
    priority := "high", status := "open"
    reason := "Transcript flags: discomfort", detected_flags := ["discomfort"] }

/-- Field bookkeeping of schedule_retry: max_retries is preserved,
retry_count increments, and the resulting state is a retry state exactly
below the retry bound, ESCALATED at or above it. -/
theorem scheduleRetry_step (r : CallRec) (d : ℕ) (n : ℚ) :
    (scheduleRetry r d n).max_retries = r.max_retries ∧
    (scheduleRetry r d n).retry_count = r.retry_count + 1 ∧
    (if r.retry_count + 1 < r.max_retries
      then isRetryState (scheduleRetry r d n).state = true
      else (scheduleRetry r d n).state = .ESCALATED) := by
  unfold scheduleRetry
  by_cases h : r.max_retries ≤ r.retry_count + 1
  · rw [if_pos h]
    refine ⟨rfl, rfl, ?_⟩
    rw [if_neg (by omega)]
  · rw [if_neg h]
    refine ⟨rfl, rfl, ?_⟩
    rw [if_pos (by omega)]
    by_cases hs : strContainsSub (pyOrStr r.triage_classification) "SILENCE" = true
    · simp [hs, isRetryState]
    · simp [hs, isRetryState]

/-- One event step from a non-terminal record: max_retries is preserved,
and the step either is a retry entry accompanied by a retry_count increment
strictly below max_retries, or is not a retry entry and leaves the record
terminal or with its retry_count unchanged. -/
theorem applyEvent_step (rec : CallRec) (e : AttemptEvent)
    (hterm : isTerminalState rec.state = false) :
    (applyEvent rec e).max_retries = rec.max_retries ∧
    ((isRetryEntry rec (applyEvent rec e) = true ∧
        (applyEvent rec e).retry_count = rec.retry_count + 1 ∧
        rec.retry_count + 1 < rec.max_retries) ∨
      (isRetryEntry rec (applyEvent rec e) = false ∧
        (isTerminalState (applyEvent rec e).state = true ∨
          (applyEvent rec e).retry_count = rec.retry_count))) := by
  cases e with
  | postCall p analysis now eid =>
    have happ : applyEvent rec (AttemptEvent.postCall p analysis now eid) =
        (webhookPostCall p (some rec) analysis now rec.id eid).record := rfl
    rw [happ]
    unfold webhookPostCall
    by_cases hb : p.status = "busy" ∨ p.status = "no_answer" ∨ p.status = "failed"
    · rw [if_pos hb]
      have hs := scheduleRetry_step
        { rec with state := .BUSY_RETRY, triage_reason := some ("Call status: " ++ p.status) } 10 now
      simp only at hs
      obtain ⟨hmax, hcnt, hst⟩ := hs
      refine ⟨hmax, ?_⟩
      by_cases hlt : rec.retry_count + 1 < rec.max_retries
      · rw [if_pos hlt] at hst
        left
        refine ⟨?_, hcnt, hlt⟩
        simp [isRetryEntry, hst, hcnt]
      · rw [if_neg hlt] at hst
        right
        constructor
        · simp [isRetryEntry, hst, isRetryState]
        · left; simp [hst, isTerminalState]
    · rw [if_neg hb]
      by_cases he : (analyzeVitals p).escalate = true
      · rw [if_pos he]
        refine ⟨rfl, Or.inr ?_⟩
        constructor
        · simp [isRetryEntry, isRetryState]
        · left; simp [isTerminalState]
      · rw [if_neg he]
        by_cases hr : (analyzeVitals p).action = "SCHEDULE_RETRY"
        · rw [if_pos hr]
          have hs := scheduleRetry_step
            { rec with
                triage_classification := some (analyzeVitals p).classification.value
                triage_reason := some (analyzeVitals p).reason
                ended_at := some now
                transcript_text := some (String.intercalate "\n"
                  (p.transcript.map (fun seg => seg.speaker ++ ": " ++ seg.text))) }
            (pyOrNat (analyzeVitals p).retry_delay_minutes 20) now
          simp only at hs
          obtain ⟨hmax, hcnt, hst⟩ := hs
          refine ⟨hmax, ?_⟩
          by_cases hlt : rec.retry_count + 1 < rec.max_retries
          · rw [if_pos hlt] at hst
            left
            refine ⟨?_, hcnt, hlt⟩
            simp [isRetryEntry, hst, hcnt]
          · rw [if_neg hlt] at hst
            right
            constructor
            · simp [isRetryEntry, hst, isRetryState]
            · left; simp [hst, isTerminalState]
        · rw [if_neg hr]
          by_cases ha : (analyzeVitals p).action = "ANALYZE_TRANSCRIPT"
          · rw [if_pos ha]
            cases analysis with
            | none =>
              by_cases hf : rec.detected_flags ≠ ([] : List String)
              · rw [if_pos hf]
                exact ⟨rfl, Or.inr ⟨by simp [isRetryEntry, isRetryState],
                  Or.inl (by simp [isTerminalState])⟩⟩
              · rw [if_neg hf]
                exact ⟨rfl, Or.inr ⟨by simp [isRetryEntry, isRetryState],
                  Or.inl (by simp [isTerminalState])⟩⟩
            | some a =>
              by_cases hf : a.detected_flags ≠ ([] : List String)
              · rw [if_pos hf]
                exact ⟨rfl, Or.inr ⟨by simp [isRetryEntry, isRetryState],
                  Or.inl (by simp [isTerminalState])⟩⟩
              · rw [if_neg hf]
                exact ⟨rfl, Or.inr ⟨by simp [isRetryEntry, isRetryState],
                  Or.inl (by simp [isTerminalState])⟩⟩
          · rw [if_neg ha]
            exact ⟨rfl, Or.inr ⟨by simp [isRetryEntry, isRetryState],
              Or.inl (by simp [isTerminalState])⟩⟩
  | analytics p =>
    have happ : applyEvent rec (AttemptEvent.analytics p) =
        (match (webhookAnalytics p (some rec)).record with
          | some r => r
          | none => rec) := rfl
    rw [happ]
    simp only [webhookAnalytics]
    have hnt : ¬ (rec.state = .ESCALATED ∨ rec.state = .COMPLETED) := by
      intro h
      rcases h with h | h <;> simp [isTerminalState, h] at hterm
    rw [if_neg hnt]
    by_cases he : (analyzeVitals
        { call_id := p.call_id, user_id := p.user_id, status := "completed",
          audio_metrics := p.audio_metrics, transcript := p.transcript,
          emotions := p.emotions }).escalate = true
    · rw [if_pos he]
      exact ⟨rfl, Or.inr ⟨by simp [isRetryEntry, isRetryState],
        Or.inl (by simp [isTerminalState])⟩⟩
    · rw [if_neg he]
      refine ⟨rfl, Or.inr ⟨?_, Or.inr rfl⟩⟩
      simp [isRetryEntry]
  | sweepTouch now =>
    have happ : applyEvent rec (AttemptEvent.sweepTouch now) =
        (match sweepUpdateLatest (some rec) now with
          | some r => r
          | none => rec) := rfl
    rw [happ]
    by_cases hrs : rec.state = .BUSY_RETRY ∨ rec.state = .SILENT_RETRY
    · cases hnra : rec.next_retry_at with
      | none =>
        simp only [sweepUpdateLatest, hnra]
        rw [if_pos hrs]
        exact ⟨rfl, Or.inr ⟨by simp [isRetryEntry], Or.inr rfl⟩⟩
      | some t =>
        simp only [sweepUpdateLatest, hnra]
        rw [if_pos hrs]
        by_cases hdue : t ≤ now ∧ rec.max_retries ≤ rec.retry_count
        · rw [if_pos hdue]
          exact ⟨rfl, Or.inr ⟨by simp [isRetryEntry, isRetryState],
            Or.inl (by simp [isTerminalState])⟩⟩
        · rw [if_neg hdue]
          exact ⟨rfl, Or.inr ⟨by simp [isRetryEntry], Or.inr rfl⟩⟩
    · simp only [sweepUpdateLatest]
      rw [if_neg hrs]
      exact ⟨rfl, Or.inr ⟨by simp [isRetryEntry], Or.inr rfl⟩⟩

/-- Once terminal, no further retry entries are counted. -/
theorem countRetryEntries_terminal (r : CallRec) (es : List AttemptEvent)
    (h : isTerminalState r.state = true) : countRetryEntries r es = 0 := by
  cases es with
  | nil => rfl
  | cons e es => simp [countRetryEntries, h]

/-- Core bound: from any record, the number of retry entries until the
first terminal state stays below max_retries minus the current count. -/
theorem countRetryEntries_bound (es : List AttemptEvent) (rec : CallRec) :
    countRetryEntries rec es ≤ rec.max_retries - 1 - rec.retry_count := by
  induction es generalizing rec with
  | nil => simp [countRetryEntries]
  | cons e es ih =>
    by_cases hterm : isTerminalState rec.state = true
    · simp [countRetryEntries, hterm]
    · have hterm' : isTerminalState rec.state = false := by
        cases h : isTerminalState rec.state with
        | false => rfl
        | true => exact absurd h hterm
      obtain ⟨hmax, hcase⟩ := applyEvent_step rec e hterm'
      have hrec := ih (applyEvent rec e)
      rcases hcase with ⟨hc, hcnt, hlt⟩ | ⟨hc, hrest⟩
      · simp only [countRetryEntries, hterm', if_false, hc, if_true, Bool.false_eq_true]
        rw [hmax, hcnt] at hrec
        omega
      · rcases hrest with ht | hcnt
        · have h0 := countRetryEntries_terminal (applyEvent rec e) es ht
          simp only [countRetryEntries, hterm', Bool.false_eq_true, if_false, hc, h0]
          omega
        · simp only [countRetryEntries, hterm', Bool.false_eq_true, if_false, hc]
          rw [hmax, hcnt] at hrec
          omega

/-- A sweep touch never performs a retry entry: it either escalates a stale
retry record or leaves the record untouched. -/
theorem sweepTouch_no_entry (r : CallRec) (n : ℚ) :
    isRetryEntry r (applyEvent r (AttemptEvent.sweepTouch n)) = false := by
  have happ : applyEvent r (AttemptEvent.sweepTouch n) =
      (match sweepUpdateLatest (some r) n with
        | some x => x
        | none => r) := rfl
  rw [happ]
  by_cases hrs : r.state = .BUSY_RETRY ∨ r.state = .SILENT_RETRY
  · cases hnra : r.next_retry_at with
    | none =>
      simp only [sweepUpdateLatest, hnra]
      rw [if_pos hrs]
      simp [isRetryEntry]
    | some t =>
      simp only [sweepUpdateLatest, hnra]
      rw [if_pos hrs]
      by_cases hdue : t ≤ n ∧ r.max_retries ≤ r.retry_count
      · rw [if_pos hdue]
        simp [isRetryEntry, isRetryState]
      · rw [if_neg hdue]
        simp [isRetryEntry]
  · simp only [sweepUpdateLatest]
    rw [if_neg hrs]
    simp [isRetryEntry]

/-- Sweep-only traces (the only events that can reach a record that was
never successfully placed) perform no retry entries. -/
theorem countRetryEntries_sweepOnly (es : List AttemptEvent) (r : CallRec)
    (h : ∀ e ∈ es, eventIsSweep e = true) : countRetryEntries r es = 0 := by
  induction es generalizing r with
  | nil => rfl
  | cons e es ih =>
    by_cases hterm : isTerminalState r.state = true
    · simp [countRetryEntries, hterm]
    · have hterm' : isTerminalState r.state = false := by
        cases hx : isTerminalState r.state with
        | false => rfl
        | true => exact absurd hx hterm
      have hsw : eventIsSweep e = true := h e (by simp)
      cases e with
      | postCall p a n i => simp [eventIsSweep] at hsw
      | analytics p => simp [eventIsSweep] at hsw
      | sweepTouch n =>
        have hne := sweepTouch_no_entry r n
        have htail := ih (applyEvent r (.sweepTouch n)) (fun e he => h e (by simp [he]))
        simp only [countRetryEntries, hterm', Bool.false_eq_true, if_false, hne, htail]

-- -------------------------------------------------------------------------
-- Helper lemmas about the keyword scan
-- -------------------------------------------------------------------------

/-- If some segment of the transcript contains some distress keyword, the
scan finds a hit. -/
theorem checkDistressKeywords_isSome (ts : List TranscriptSegment)
    (h : ∃ seg ∈ ts, ∃ kw ∈ DISTRESS_KEYWORDS,
      strContainsSub (strToLower seg.text) kw = true) :
    (checkDistressKeywords ts).isSome = true := by
  induction ts with
  | nil => simp at h
  | cons s ts ih =>
    unfold checkDistressKeywords
    cases hs : segKeywordHit s with
    | some kw => rfl
    | none =>
      obtain ⟨seg, hmem, kw, hkw, hsub⟩ := h
      rcases List.mem_cons.mp hmem with heq | hmem'
      · exfalso
        have hall := List.find?_eq_none.mp hs kw hkw
        rw [heq] at hsub
        exact hall hsub
      · exact ih ⟨seg, hmem', kw, hkw, hsub⟩

-- -------------------------------------------------------------------------
-- C1 — critical silence
-- -------------------------------------------------------------------------

/-- C1 counterexample: a payload with avg_db < −50 and speech_probability
below 0.05 whose transcript contains the keyword help is classified
SPEECH_DETECTED, not CRITICAL_SILENCE — the claim does not hold regardless
of transcript content. -/
theorem C1_counterexample :
    pC1cex.audio_metrics.avg_db < -50 ∧
    pC1cex.audio_metrics.speech_probability < CRITICAL_SILENCE_SPEECH_PROB ∧
    (analyzeVitals pC1cex).classification ≠ TriageClassification.CRITICAL_SILENCE := by
  refine ⟨by decide, by decide, by decide⟩

/-- C1 (amended): for every payload with avg_db < −50 and
speech_probability < 0.05, analyze_vitals escalates; the classification is
CRITICAL_SILENCE provided neither distress bypass fires (a distress
emotion or keyword yields SPEECH_DETECTED instead, still escalating). -/
theorem C1_critical_silence (p : SmallestAIPostCallPayload)
    (hdb : p.audio_metrics.avg_db < -50)
    (hsp : p.audio_metrics.speech_probability < CRITICAL_SILENCE_SPEECH_PROB) :
    (analyzeVitals p).escalate = true ∧
    (checkDistressEmotions p.emotions p.transcript = none →
      checkDistressKeywords p.transcript = none →
      (analyzeVitals p).classification = TriageClassification.CRITICAL_SILENCE) := by
  unfold analyzeVitals
  cases he : checkDistressEmotions p.emotions p.transcript with
  | some em =>
    refine ⟨rfl, ?_⟩
    intro h
    exact absurd h (by simp)
  | none =>
    cases hk : checkDistressKeywords p.transcript with
    | some kw =>
      refine ⟨rfl, ?_⟩
      intro _ h
      exact absurd h (by simp)
    | none =>
      have hA : ¬ (p.audio_metrics.avg_db > BACKGROUND_NOISE_DB_THRESHOLD ∧
          p.audio_metrics.speech_probability < SPEECH_PROBABILITY_THRESHOLD) := by
        intro hc
        have h20 : BACKGROUND_NOISE_DB_THRESHOLD = -20 := rfl
        have h50 : ((-50 : ℚ)) ≤ -20 := by norm_num
        have := hc.1
        rw [h20] at this
        linarith
      have hB : p.audio_metrics.avg_db < SILENCE_DB_THRESHOLD ∧
          p.audio_metrics.speech_probability < CRITICAL_SILENCE_SPEECH_PROB := by
        constructor
        · have h50 : SILENCE_DB_THRESHOLD = -50 := rfl
          rw [h50]
          exact hdb
        · exact hsp
      rw [if_neg hA, if_pos hB]
      exact ⟨rfl, fun _ _ => rfl⟩

/-- C1 witness: the silent payload with empty transcript satisfies the
hypotheses and is classified CRITICAL_SILENCE with escalation. -/
theorem C1_witness :
    (pC1wit.audio_metrics.avg_db < -50 ∧
      pC1wit.audio_metrics.speech_probability < CRITICAL_SILENCE_SPEECH_PROB) ∧
    ((analyzeVitals pC1wit).escalate = true ∧
      (checkDistressEmotions pC1wit.emotions pC1wit.transcript = none →
        checkDistressKeywords pC1wit.transcript = none →
        (analyzeVitals pC1wit).classification = TriageClassification.CRITICAL_SILENCE)) :=
  ⟨⟨by decide, by decide⟩, C1_critical_silence pC1wit (by decide) (by decide)⟩

-- -------------------------------------------------------------------------
-- C4 — distress keywords force an escalating SPEECH_DETECTED result
-- -------------------------------------------------------------------------

/-- C4: any payload whose transcript contains a distress keyword is
classified SPEECH_DETECTED with escalate = true (either bypass rule that
can fire first returns exactly this pair). -/
theorem C4_keyword_escalation (p : SmallestAIPostCallPayload)
    (h : ∃ seg ∈ p.transcript, ∃ kw ∈ DISTRESS_KEYWORDS,
      strContainsSub (strToLower seg.text) kw = true) :
    (analyzeVitals p).classification = TriageClassification.SPEECH_DETECTED ∧
    (analyzeVitals p).escalate = true := by
  unfold analyzeVitals
  cases he : checkDistressEmotions p.emotions p.transcript with
  | some em => exact ⟨rfl, rfl⟩
  | none =>
    have hsome := checkDistressKeywords_isSome p.transcript h
    cases hk : checkDistressKeywords p.transcript with
    | none => rw [hk] at hsome; simp at hsome
    | some kw => exact ⟨rfl, rfl⟩

/-- C4 witness: a noisy-environment payload saying HELP escalates as
SPEECH_DETECTED. -/
theorem C4_witness :
    (∃ seg ∈ pC4wit.transcript, ∃ kw ∈ DISTRESS_KEYWORDS,
      strContainsSub (strToLower seg.text) kw = true) ∧
    ((analyzeVitals pC4wit).classification = TriageClassification.SPEECH_DETECTED ∧
      (analyzeVitals pC4wit).escalate = true) :=
  ⟨by decide, C4_keyword_escalation pC4wit (by decide)⟩

-- -------------------------------------------------------------------------
-- C9 — keyword matching is substring containment, not whole-word matching
-- -------------------------------------------------------------------------

/-- C9: with no qualifying distress emotion, a keyword occurring anywhere
inside the lowercased text of a segment — also inside a longer word —
yields SPEECH_DETECTED with escalate = true. -/
theorem C9_substring_matching (p : SmallestAIPostCallPayload)
    (hem : checkDistressEmotions p.emotions p.transcript = none)
    (h : ∃ seg ∈ p.transcript, ∃ kw ∈ DISTRESS_KEYWORDS,
      strContainsSub (strToLower seg.text) kw = true) :
    (analyzeVitals p).classification = TriageClassification.SPEECH_DETECTED ∧
    (analyzeVitals p).escalate = true := by
  unfold analyzeVitals
  rw [hem]
  have hsome := checkDistressKeywords_isSome p.transcript h
  cases hk : checkDistressKeywords p.transcript with
  | none => rw [hk] at hsome; simp at hsome
  | some kw => exact ⟨rfl, rfl⟩

/-- C9 witness: the word helping contains the keyword help, and the
otherwise background-noise payload escalates as SPEECH_DETECTED. -/
theorem C9_witness :
    (checkDistressEmotions pC9wit.emotions pC9wit.transcript = none ∧
      ∃ seg ∈ pC9wit.transcript, ∃ kw ∈ DISTRESS_KEYWORDS,
        strContainsSub (strToLower seg.text) kw = true) ∧
    ((analyzeVitals pC9wit).classification = TriageClassification.SPEECH_DETECTED ∧
      (analyzeVitals pC9wit).escalate = true) :=
  ⟨⟨by decide, by decide⟩, C9_substring_matching pC9wit (by decide) (by decide)⟩

-- -------------------------------------------------------------------------
-- Helper: outcome enumeration of the post-call webhook
-- -------------------------------------------------------------------------

/-- Every run of webhook_post_call falls into exactly one of: escalated
with a single high-priority EscalationRecord; retry scheduled with none;
completed with none or with a single record graded by the stored
sentiment. -/
theorem webhookPostCall_spec (p : SmallestAIPostCallPayload)
    (existing : Option CallRec) (analysis : Option AnalysisResult)
    (now : ℚ) (cid eid : String) :
    ((webhookPostCall p existing analysis now cid eid).status = "escalated" ∧
      ∃ e, (webhookPostCall p existing analysis now cid eid).newEscalations = [e] ∧
        e.priority = "high") ∨
    ((webhookPostCall p existing analysis now cid eid).status = "retry_scheduled" ∧
      (webhookPostCall p existing analysis now cid eid).newEscalations = []) ∨
    ((webhookPostCall p existing analysis now cid eid).status = "completed" ∧
      ((webhookPostCall p existing analysis now cid eid).newEscalations = [] ∨
        ∃ e, (webhookPostCall p existing analysis now cid eid).newEscalations = [e] ∧
          e.priority =
            (if pyOrInt (webhookPostCall p existing analysis now cid eid).record.sentiment_score 3 ≤ 2
              then "high" else "medium"))) := by
  unfold webhookPostCall
  by_cases hb : p.status = "busy" ∨ p.status = "no_answer" ∨ p.status = "failed"
  · rw [if_pos hb]
    exact Or.inr (Or.inl ⟨rfl, rfl⟩)
  · rw [if_neg hb]
    by_cases he : (analyzeVitals p).escalate = true
    · rw [if_pos he]
      exact Or.inl ⟨rfl, _, rfl, rfl⟩
    · rw [if_neg he]
      by_cases hr : (analyzeVitals p).action = "SCHEDULE_RETRY"
      · rw [if_pos hr]
        exact Or.inr (Or.inl ⟨rfl, rfl⟩)
      · rw [if_neg hr]
        by_cases ha : (analyzeVitals p).action = "ANALYZE_TRANSCRIPT"
        · rw [if_pos ha]
          cases analysis with
          | some a =>
            dsimp only
            split
            · exact Or.inr (Or.inr ⟨rfl, Or.inr ⟨_, rfl, rfl⟩⟩)
            · exact Or.inr (Or.inr ⟨rfl, Or.inl rfl⟩)
          | none =>
            dsimp only
            split
            · exact Or.inr (Or.inr ⟨rfl, Or.inr ⟨_, rfl, rfl⟩⟩)
            · exact Or.inr (Or.inr ⟨rfl, Or.inl rfl⟩)
        · rw [if_neg ha]
          exact Or.inr (Or.inr ⟨rfl, Or.inl rfl⟩)

/-- Python x or d on an optional integer agrees with getD when the value,
if present, is nonzero. -/
theorem pyOrInt_eq_getD (x : Option ℤ) (d : ℤ) (h : ∀ s, x = some s → s ≠ 0) :
    pyOrInt x d = x.getD d := by
  cases x with
  | none => rfl
  | some s => simp [pyOrInt, Option.getD, h s rfl]

-- -------------------------------------------------------------------------
-- C2 — idempotence of replayed completed-call webhooks
-- -------------------------------------------------------------------------

/-- C2 counterexample: redelivering a completed-call webhook for an
attempt already COMPLETED is reprocessed by the post-call handler — it
returns escalated instead of already_processed, overwrites the state, and
inserts another EscalationRecord. -/
theorem C2_counterexample :
    recC2cex.state = CallState.COMPLETED ∧
    (webhookPostCall pC2cex (some recC2cex) none 0 "call_x" "esc_x").status ≠ "already_processed" ∧
    (webhookPostCall pC2cex (some recC2cex) none 0 "call_x" "esc_x").record.state ≠ recC2cex.state ∧
    (webhookPostCall pC2cex (some recC2cex) none 0 "call_x" "esc_x").newEscalations.length = 1 :=
  ⟨rfl, by decide, by decide, by decide⟩

/-- C2 (amended): the terminal-state no-op exists only at the analytics
endpoint: for an attempt already COMPLETED or ESCALATED it returns
already_processed, returns the record unchanged, and inserts no
EscalationRecord; the post-call endpoint performs no terminal-state check
and reprocesses the payload. -/
theorem C2_analytics_idempotence (p : SmallestAIAnalyticsPayload) (r : CallRec)
    (h : r.state = CallState.COMPLETED ∨ r.state = CallState.ESCALATED) :
    webhookAnalytics p (some r) =
      { status := "already_processed", record := some r, newEscalations := [] } := by
  simp only [webhookAnalytics]
  rw [if_pos (Or.symm h)]

/-- C2 witness: a COMPLETED attempt replayed through the analytics
endpoint is left untouched. -/
theorem C2_witness :
    (recC2wit.state = CallState.COMPLETED ∨ recC2wit.state = CallState.ESCALATED) ∧
    webhookAnalytics pC2wit (some recC2wit) =
      { status := "already_processed", record := some recC2wit, newEscalations := [] } :=
  ⟨Or.inl rfl, C2_analytics_idempotence pC2wit recC2wit (Or.inl rfl)⟩

-- -------------------------------------------------------------------------
-- C3 — the next_retry_at iff invariant
-- -------------------------------------------------------------------------

/-- C3 counterexample: schedule_retry on an attempt one retry short of the
bound escalates but leaves the freshly written next_retry_at in place: an
ESCALATED record with non-null next_retry_at, violating the iff. -/
theorem C3_counterexample :
    (scheduleRetry recC3cex 10 0).state = CallState.ESCALATED ∧
    (scheduleRetry recC3cex 10 0).next_retry_at ≠ none :=
  ⟨by decide, by decide⟩

/-- C3 (amended): the next_retry_at bookkeeping as implemented.
schedule_retry always sets next_retry_at and lands in a retry state exactly
when the incremented count stays below max_retries — so exhaustion leaves
an ESCALATED record with next_retry_at set. Records created by the sweep
satisfy the iff (PENDING without a time, placement-failure BUSY_RETRY with
one). The force-escalation of the sweep never clears next_retry_at. The
manual trigger placement failure leaves BUSY_RETRY with next_retry_at
null. -/
theorem C3_next_retry_bookkeeping :
    (∀ r d n, (scheduleRetry r d n).next_retry_at = some (n + (d : ℚ)) ∧
      (isRetryState (scheduleRetry r d n).state = true ↔ r.retry_count + 1 < r.max_retries)) ∧
    (∀ u latest pl now cid r, (sweepUserStep u latest pl now cid).2 = some r →
      r.next_retry_at.isSome = isRetryState r.state) ∧
    (∀ lc n r, sweepUpdateLatest (some lc) n = some r →
      r.next_retry_at = lc.next_retry_at) ∧
    (∀ patient n cid,
      ((triggerOutboundCall patient none n cid).2).state = CallState.BUSY_RETRY ∧
      ((triggerOutboundCall patient none n cid).2).next_retry_at = none) := by
  refine ⟨?_, ?_, ?_, ?_⟩
  · intro r d n
    constructor
    · unfold scheduleRetry
      by_cases h : r.max_retries ≤ r.retry_count + 1
      · rw [if_pos h]
      · rw [if_neg h]
    · obtain ⟨_, _, hst⟩ := scheduleRetry_step r d n
      by_cases h : r.retry_count + 1 < r.max_retries
      · rw [if_pos h] at hst
        exact ⟨fun _ => h, fun _ => hst⟩
      · rw [if_neg h] at hst
        constructor
        · intro hh
          rw [hst] at hh
          exact absurd hh (by decide)
        · intro hh
          exact absurd hh h
  · intro u latest pl now cid r h
    unfold sweepUserStep at h
    by_cases hsc : sweepShouldCall latest now = true
    · rw [if_pos hsc] at h
      cases pl with
      | some sid =>
        have hr := Option.some.inj h
        rw [← hr]
        simp [isRetryState]
      | none =>
        have hr := Option.some.inj h
        rw [← hr]
        simp [isRetryState]
    · rw [if_neg hsc] at h
      exact absurd h (by simp)
  · intro lc n r
    by_cases hrs : lc.state = CallState.BUSY_RETRY ∨ lc.state = CallState.SILENT_RETRY
    · cases hnra : lc.next_retry_at with
      | none =>
        simp only [sweepUpdateLatest, hnra]
        rw [if_pos hrs]
        intro h
        rw [← Option.some.inj h]
        exact hnra
      | some t =>
        simp only [sweepUpdateLatest, hnra]
        rw [if_pos hrs]
        by_cases hdue : t ≤ n ∧ lc.max_retries ≤ lc.retry_count
        · rw [if_pos hdue]
          intro h
          rw [← Option.some.inj h]
        · rw [if_neg hdue]
          intro h
          rw [← Option.some.inj h]
          exact hnra
    · simp only [sweepUpdateLatest]
      rw [if_neg hrs]
      intro h
      rw [← Option.some.inj h]
  · intro patient n cid
    exact ⟨rfl, rfl⟩

/-- C3 witness: the sweep force-escalates an exhausted due retry and keeps
its next_retry_at. -/
theorem C3_witness :
    sweepUpdateLatest (some lcC3wit) 20 = some rC3wit ∧
    rC3wit.next_retry_at = lcC3wit.next_retry_at :=
  ⟨by decide, C3_next_retry_bookkeeping.2.2.1 lcC3wit 20 rC3wit (by decide)⟩

-- -------------------------------------------------------------------------
-- C5 — the retry bound
-- -------------------------------------------------------------------------

/-- C5: over the lifetime of one attempt record — its placement outcome at
creation followed by any sequence of webhook deliveries and sweep
inspections, where webhooks can only reach a successfully placed record
(the handler lookup is by the external call id attached on success) — the
number of transitions into BUSY_RETRY or SILENT_RETRY before the record
first reaches ESCALATED or COMPLETED is at most max_retries. -/
theorem C5_retry_bound (rec : CallRec) (pr : PlacementResult)
    (es : List AttemptEvent)
    (hpend : rec.state = CallState.PENDING) (hmax : 1 ≤ rec.max_retries)
    (hfail : placementIsSuccess pr = false → ∀ e ∈ es, eventIsSweep e = true) :
    attemptRetryTransitions rec pr es ≤ rec.max_retries := by
  cases pr with
  | success sid =>
    have hentry : isRetryEntry rec (applyPlacement rec (.success sid)) = false := by
      simp [applyPlacement, isRetryEntry, isRetryState, hpend]
    have hbound := countRetryEntries_bound es (applyPlacement rec (.success sid))
    have hm : (applyPlacement rec (.success sid)).max_retries = rec.max_retries := rfl
    rw [hm] at hbound
    simp only [attemptRetryTransitions, hentry, Bool.false_eq_true, if_false]
    omega
  | failureSweep n =>
    have hz := countRetryEntries_sweepOnly es (applyPlacement rec (.failureSweep n)) (hfail rfl)
    simp only [attemptRetryTransitions, hz]
    have h1 : (if isRetryEntry rec (applyPlacement rec (.failureSweep n)) then 1 else 0) ≤ 1 := by
      split <;> omega
    omega
  | failureManual =>
    have hz := countRetryEntries_sweepOnly es (applyPlacement rec .failureManual) (hfail rfl)
    simp only [attemptRetryTransitions, hz]
    have h1 : (if isRetryEntry rec (applyPlacement rec .failureManual) then 1 else 0) ≤ 1 := by
      split <;> omega
    omega

/-- C5 witness: a fresh attempt, successful placement, one busy webhook. -/
theorem C5_witness :
    (recC5wit.state = CallState.PENDING ∧ 1 ≤ recC5wit.max_retries) ∧
    attemptRetryTransitions recC5wit (PlacementResult.success "sm_c5")
      [AttemptEvent.postCall pC5busy none 0 "esc_c5"] ≤ recC5wit.max_retries :=
  ⟨⟨rfl, by decide⟩,
    C5_retry_bound recC5wit (PlacementResult.success "sm_c5")
      [AttemptEvent.postCall pC5busy none 0 "esc_c5"] rfl (by decide)
      (fun h => absurd h (by decide))⟩

-- -------------------------------------------------------------------------
-- C6 — one EscalationRecord per escalation
-- -------------------------------------------------------------------------

/-- C6 counterexample: the analytics webhook escalates an open attempt —
silent metrics move it to ESCALATED — yet inserts no EscalationRecord. -/
theorem C6_counterexample :
    (webhookAnalytics pC6cex (some recC6cex)).status = "escalated" ∧
    (∃ r, (webhookAnalytics pC6cex (some recC6cex)).record = some r ∧
      r.state = CallState.ESCALATED) ∧
    (webhookAnalytics pC6cex (some recC6cex)).newEscalations = [] :=
  ⟨by decide, ⟨_, rfl, by decide⟩, rfl⟩

/-- C6 (amended): exactly one EscalationRecord is inserted when the
post-call webhook escalates; the analytics webhook never inserts one, even
when it escalates the attempt (retry-exhaustion escalations in the
scheduler likewise construct none). -/
theorem C6_escalation_records :
    (∀ p existing analysis now cid eid,
        (webhookPostCall p existing analysis now cid eid).status = "escalated" →
        (webhookPostCall p existing analysis now cid eid).newEscalations.length = 1) ∧
    (∀ p r, (webhookAnalytics p r).newEscalations = []) := by
  constructor
  · intro p existing analysis now cid eid h
    rcases webhookPostCall_spec p existing analysis now cid eid with
      ⟨_, e, hesc, _⟩ | ⟨hs, _⟩ | ⟨hs, _⟩
    · rw [hesc]
      rfl
    · exact absurd (hs.symm.trans h) (by decide)
    · exact absurd (hs.symm.trans h) (by decide)
  · intro p r
    cases r with
    | none => rfl
    | some rc =>
      simp only [webhookAnalytics]
      by_cases ht : rc.state = CallState.ESCALATED ∨ rc.state = CallState.COMPLETED
      · rw [if_pos ht]
      · rw [if_neg ht]
        split <;> rfl

/-- C6 witness: a silent completed-call payload escalates through the
post-call webhook and inserts exactly one EscalationRecord. -/
theorem C6_witness :
    (webhookPostCall pC6wit (some recC6wit) none 0 "call_y" "esc_y").status = "escalated" ∧
    (webhookPostCall pC6wit (some recC6wit) none 0 "call_y" "esc_y").newEscalations.length = 1 :=
  ⟨rfl, C6_escalation_records.1 pC6wit (some recC6wit) none 0 "call_y" "esc_y" rfl⟩

-- -------------------------------------------------------------------------
-- C7 — which patients the sweep calls
-- -------------------------------------------------------------------------

/-- C7 counterexample: the sweep iterates every user row without a status
filter; a patient in PENDING_REVIEW (not under active monitoring) with no
prior attempt is due and gets a new attempt created. -/
theorem C7_counterexample :
    uC7cex.status ≠ PatientStatus.ACTIVE ∧
    uC7cex.status ≠ PatientStatus.CONFIRMED ∧
    ((sweepUserStep uC7cex none (some "sm_c7") 0 "call_c7").2).isSome = true :=
  ⟨by decide, by decide, rfl⟩

/-- C7 (amended): the sweep decision never reads the patient status — the
outcome is invariant under changing it — and no attempt is created for a
patient whose latest attempt is PENDING or ESCALATED. -/
theorem C7_sweep_selection :
    (∀ u s latest pl now cid,
        sweepUserStep { u with status := s } latest pl now cid =
          sweepUserStep u latest pl now cid) ∧
    (∀ u lc pl now cid,
        (lc.state = CallState.PENDING ∨ lc.state = CallState.ESCALATED) →
        (sweepUserStep u (some lc) pl now cid).2 = none) := by
  constructor
  · intro u s latest pl now cid
    rfl
  · intro u lc pl now cid h
    have hsc : sweepShouldCall (some lc) now = false := by
      rcases h with h | h <;> simp [sweepShouldCall, h]
    unfold sweepUserStep
    simp [hsc]

/-- C7 witness: an active patient whose latest attempt is PENDING gets no
new attempt from the sweep. -/
theorem C7_witness :
    (lcC7wit.state = CallState.PENDING ∨ lcC7wit.state = CallState.ESCALATED) ∧
    (sweepUserStep uC7wit (some lcC7wit) none 0 "call_w7").2 = none :=
  ⟨Or.inl rfl, C7_sweep_selection.2 uC7wit lcC7wit none 0 "call_w7" (Or.inl rfl)⟩

-- -------------------------------------------------------------------------
-- C8 — the manual trigger outcome dichotomy
-- -------------------------------------------------------------------------

/-- C8: for an existing patient the manual trigger either succeeds with
the id of the newly created attempt, or placement fails and it surfaces
HTTP 502 with the attempt left in BUSY_RETRY; there is no third outcome. -/
theorem C8_manual_trigger (patient : PatientRec) (placement : Option String)
    (now : ℚ) (freshCallId : String) :
    (∃ sid, placement = some sid ∧
      (triggerOutboundCall patient placement now freshCallId).1 =
        Except.ok { status := "call_placed", call_id := freshCallId, smallest_call_id := sid } ∧
      ((triggerOutboundCall patient placement now freshCallId).2).id = freshCallId) ∨
    (placement = none ∧
      (triggerOutboundCall patient placement now freshCallId).1 = Except.error 502 ∧
      ((triggerOutboundCall patient placement now freshCallId).2).state = CallState.BUSY_RETRY) := by
  cases placement with
  | some sid => exact Or.inl ⟨sid, rfl, rfl, rfl⟩
  | none => exact Or.inr ⟨rfl, rfl, rfl⟩

-- -------------------------------------------------------------------------
-- C10 — escalation priorities
-- -------------------------------------------------------------------------

/-- C10: every EscalationRecord the post-call webhook inserts on the
triage escalation path has priority high unconditionally; the
transcript-flag path grades by sentiment — high exactly when the stored
sentiment (3 when missing) is at most 2, else medium. The hypothesis
reflects the transcript-analyzer contract of nonzero sentiment (1..5), so
Python falsiness coincides with a missing value. -/
theorem C10_priority_grading (p : SmallestAIPostCallPayload)
    (existing : Option CallRec) (analysis : Option AnalysisResult)
    (now : ℚ) (cid eid : String)
    (hsent : ∀ s : ℤ,
      (webhookPostCall p existing analysis now cid eid).record.sentiment_score = some s →
        s ≠ 0) :
    ((webhookPostCall p existing analysis now cid eid).status = "escalated" →
      ∀ e ∈ (webhookPostCall p existing analysis now cid eid).newEscalations,
        e.priority = "high") ∧
    ((webhookPostCall p existing analysis now cid eid).status = "completed" →
      ∀ e ∈ (webhookPostCall p existing analysis now cid eid).newEscalations,
        e.priority =
          if (webhookPostCall p existing analysis now cid eid).record.sentiment_score.getD 3 ≤ 2
          then "high" else "medium") := by
  have hspec := webhookPostCall_spec p existing analysis now cid eid
  constructor
  · intro h e he
    rcases hspec with ⟨_, e2, hesc, hp⟩ | ⟨hs, _⟩ | ⟨hs, _⟩
    · rw [hesc] at he
      rw [List.mem_singleton.mp he]
      exact hp
    · exact absurd (hs.symm.trans h) (by decide)
    · exact absurd (hs.symm.trans h) (by decide)
  · intro h e he
    rcases hspec with ⟨hs, _⟩ | ⟨hs, _⟩ | ⟨_, hcase⟩
    · exact absurd (hs.symm.trans h) (by decide)
    · exact absurd (hs.symm.trans h) (by decide)
    · rcases hcase with hnil | ⟨e2, heq, hp⟩
      · rw [hnil] at he
        simp at he
      · rw [heq] at he
        rw [List.mem_singleton.mp he, hp,
          pyOrInt_eq_getD (webhookPostCall p existing analysis now cid eid).record.sentiment_score 3 hsent]

/-- C10 witness: a flagged transcript with sentiment 2 yields the inserted
escalation record, and its priority obeys the sentiment grading. -/
theorem C10_witness :
    escC10wit ∈ (webhookPostCall pC10wit (some recC10wit) (some aC10wit) 0
      "call_z" "esc_z").newEscalations ∧
    escC10wit.priority =
      (if (webhookPostCall pC10wit (some recC10wit) (some aC10wit) 0
          "call_z" "esc_z").record.sentiment_score.getD 3 ≤ 2
        then "high" else "medium") :=
  ⟨by decide,
    (C10_priority_grading pC10wit (some recC10wit) (some aC10wit) 0 "call_z" "esc_z"
      (fun s hs => by
        have h2 : (webhookPostCall pC10wit (some recC10wit) (some aC10wit) 0
            "call_z" "esc_z").record.sentiment_score = some 2 := rfl
        rw [h2] at hs
        have h2s : (2 : ℤ) = s := Option.some.inj hs
        omega)).2 rfl escC10wit (by decide)⟩

end PulseCall
